import Mathlib

/-!
Verification of the ticket CRUD service (`src/main.py`).

The service is embedded shallowly:
* a Mongo document is an association list of field name to `Value`
  (Python `dict` preserves insertion order and has unique keys);
* the `ticket` collection is a list of documents, each carrying a `"_id"` field;
* every route handler becomes a total function from the database handle and
  the request data to `Except statusCode result`, with the `try/except`
  structure of the Python source modelled by an explicit exception type.
-/

namespace TicketApi

/-- Values a stored document field can hold: strings, BSON object ids,
`datetime.datetime`, `datetime.date`, and `None`. -/
inductive Value where
  | vNull : Value
  | vStr : String → Value
  | vOId : String → Value
  | vDateTime : Nat → Value
  | vDate : Nat → Value
deriving DecidableEq

/-- A document: ordered field map with unique keys, as a Python dict. -/
abbrev Doc := List (String × Value)

/-- The ticket collection: the list of stored documents. -/
abbrev Store := List Doc

/-- Dictionary lookup, `d[k]` / `d.get(k)`. -/
def dictGet : Doc → String → Option Value
  | [], _ => none
  | p :: rest, k => if p.1 = k then some p.2 else dictGet rest k

/-- Dictionary assignment `d[k] = v`: replace the entry in place when the key
is present, otherwise append the pair at the end (Python dict semantics). -/
def dictSet : Doc → String → Value → Doc
  | [], k, v => [(k, v)]
  | p :: rest, k, v =>
      if p.1 = k then (k, v) :: dictSet rest k v else p :: dictSet rest k v

/-- Dictionary removal `d.pop(k)`. -/
def dictPop : Doc → String → Doc
  | [], _ => []
  | p :: rest, k => if p.1 = k then dictPop rest k else p :: dictPop rest k

/-- Mongo `$set`: apply each update pair in order via dict assignment. -/
def applySet : Doc → Doc → Doc
  | d, [] => d
  | d, p :: rest => applySet (dictSet d p.1 p.2) rest

/-- Hexadecimal digit, as accepted by `bson.ObjectId`. -/
def isHexChar (c : Char) : Bool :=
  c.isDigit || (Char.ofNat 97 ≤ c && c ≤ Char.ofNat 102) ||
    (Char.ofNat 65 ≤ c && c ≤ Char.ofNat 70)

/-- A string parses as a `bson.ObjectId` exactly when it is a 24-character
hexadecimal string; otherwise the constructor raises `InvalidId`. -/
def isValidOId (s : String) : Bool :=
  s.data.length == 24 && s.data.all isHexChar

/-- Abstract rendering of `datetime.datetime.isoformat()`.  The claims depend
only on timestamp fields being replaced by their string rendering, so the
calendar arithmetic itself is left abstract (an injective map from ticks). -/
def isoDatetime (t : Nat) : String := "datetime:" ++ toString t

/-- Abstract rendering of `datetime.date.isoformat()`. -/
def isoDate (t : Nat) : String := "date:" ++ toString t

/-- Python `str(v)`, as used on the popped `_id` value: an ObjectId renders
as its 24-character hexadecimal string. -/
def pyStr : Value → String
  | .vNull => "None"
  | .vStr s => s
  | .vOId s => s
  | .vDateTime t => isoDatetime t
  | .vDate t => isoDate t

/-- The per-value part of `serialize_doc`: `datetime.datetime` and
`datetime.date` values become their isoformat strings, everything else is
passed through (src/main.py lines 30-36). -/
def serializeVal : Value → Value
  | .vDateTime t => .vStr (isoDatetime t)
  | .vDate t => .vStr (isoDate t)
  | v => v

/-- Apply `serializeVal` to every field value of a document. -/
def shapeVals (d : Doc) : Doc := d.map (fun p => (p.1, serializeVal p.2))

/-- `serialize_doc` (src/main.py lines 23-37): pop `_id` and store its
stringification under `id`, then isoformat every timestamp value.  An empty
document (falsy in Python) is returned unchanged, which the definition below
also does. -/
def serialize_doc (d : Doc) : Doc :=
  match dictGet d "_id" with
  | some v => shapeVals (dictSet (dictPop d "_id") "id" (.vStr (pyStr v)))
  | none => shapeVals d

/-- `find_one` on the `ticket` collection keyed by `ObjectId(tid)`: the first
document whose `_id` equals the given object id. -/
def find_one : Store → String → Option Doc
  | [], _ => none
  | d :: rest, tid =>
      if dictGet d "_id" = some (.vOId tid) then some d else find_one rest tid

/-- Mongo `update_one` with a `$set` document: update the first matching
document, returning the new collection and `matched_count`. -/
def update_one : Store → String → Doc → Store × Nat
  | [], _, _ => ([], 0)
  | d :: rest, tid, u =>
      if dictGet d "_id" = some (.vOId tid) then (applySet d u :: rest, 1)
      else
        let r := update_one rest tid u
        (d :: r.1, r.2)

/-- Mongo `delete_one`: remove the first matching document, returning the new
collection and `deleted_count`. -/
def delete_one : Store → String → Store × Nat
  | [], _ => ([], 0)
  | d :: rest, tid =>
      if dictGet d "_id" = some (.vOId tid) then (rest, 1)
      else
        let r := delete_one rest tid
        (d :: r.1, r.2)

/-- Modelled from the spec: the `Ticket` creation schema (`schemas.py` is not
under src/).  Per the spec data model, `title` is required text and
`description`, `status`, `priority`, `assignee` are optional text fields; the
store-assigned `id` and the service-stamped `updated_at` are never part of the
creation payload, and extra fields are ignored by validation. -/
structure TicketCreate where
  title : String
  description : Option String := none
  status : Option String := none
  priority : Option String := none
  assignee : Option String := none

/-- Render an optional text field of a validated payload as a stored value. -/
def optVal : Option String → Value
  | none => .vNull
  | some s => .vStr s

/-- The document a validated creation payload dumps to. -/
def TicketCreate.dump (p : TicketCreate) : Doc :=
  [("title", .vStr p.title),
   ("description", optVal p.description),
   ("status", optVal p.status),
   ("priority", optVal p.priority),
   ("assignee", optVal p.assignee)]

/-- `TicketUpdate` (src/main.py lines 89-94): every field optional.  The outer
`Option` is pydantic unset-ness (dropped by `exclude_unset`), the inner
`Option` is an explicit JSON `null`. -/
structure TicketUpdate where
  title : Option (Option String) := none
  description : Option (Option String) := none
  status : Option (Option String) := none
  priority : Option (Option String) := none
  assignee : Option (Option String) := none

/-- One field of `model_dump(exclude_unset=True)`: absent when unset. -/
def optField (k : String) : Option (Option String) → Doc
  | none => []
  | some v => [(k, optVal v)]

/-- `payload.model_dump(exclude_unset=True)` (src/main.py line 134): only the
fields explicitly provided, in declaration order. -/
def TicketUpdate.dump (p : TicketUpdate) : Doc :=
  optField "title" p.title ++ optField "description" p.description ++
    optField "status" p.status ++ optField "priority" p.priority ++
    optField "assignee" p.assignee

/-- The empty PATCH body: no field explicitly provided. -/
def emptyUpdate : TicketUpdate := {}

/-- The PATCH body consisting exactly of the JSON object with a single
`status` field holding `"closed"`. -/
def statusClosedPayload : TicketUpdate := { status := some (some "closed") }

/-- Exceptions a route body can raise: a FastAPI `HTTPException` with a status
code, or the `bson` error raised by `ObjectId()` on a malformed id string. -/
inductive Exc where
  | http : Nat → Exc
  | invalidId : Exc

/-- Modelled from the spec: `create_document` (`database.py` is not under
src/) — "insert(document) -> id: stores the document, returns its assigned
identifier".  The store assigns the fresh object id `newId` to the `_id`
field and appends the document to the collection. -/
def create_document (st : Store) (payload : Doc) (newId : String) :
    Store × String :=
  (st ++ [dictSet payload "_id" (.vOId newId)], newId)

/-- Modelled from the spec: the filter test of `get_documents`
(`database.py` is not under src/) — a "mapping of field→exact-match value". -/
def matchesFilter (d : Doc) (f : Doc) : Bool :=
  f.all (fun p => decide (dictGet d p.1 = some p.2))

/-- Modelled from the spec: `get_documents` (`database.py` is not under src/)
— "findMany(filter) -> sequence of documents: empty filter returns the entire
collection". -/
def get_documents (st : Store) (f : Doc) : List Doc :=
  st.filter (fun d => matchesFilter d f)

/-- `POST /api/tickets` (src/main.py lines 96-102): 500 when the store is
unconfigured, otherwise insert the validated payload, re-fetch by the
returned id and shape the result.  `newId` is the fresh identifier the store
assigns. -/
def create_ticket (db : Option Store) (p : TicketCreate) (newId : String) :
    Except Nat (Store × Option Doc) :=
  match db with
  | none => .error 500
  | some st =>
      let r := create_document st p.dump newId
      .ok (r.1, (find_one r.1 r.2).map serialize_doc)

/-- `GET /api/tickets` (src/main.py lines 104-114): a query parameter that is
`None` or empty (Python-falsy) contributes no filter entry; each filter entry
is exact-match equality. -/
def list_tickets (db : Option Store) (status priority : Option String) :
    Except Nat (List Doc) :=
  match db with
  | none => .error 500
  | some st =>
      let f0 : Doc := []
      let f1 := match status with
        | some s => if s = "" then f0 else dictSet f0 "status" (.vStr s)
        | none => f0
      let f2 := match priority with
        | some s => if s = "" then f1 else dictSet f1 "priority" (.vStr s)
        | none => f1
      .ok ((get_documents st f2).map serialize_doc)

/-- The `try` body of `get_ticket` (src/main.py lines 120-124): parse the id,
fetch, raise `HTTPException(404)` when absent. -/
def get_ticket_body (st : Store) (tid : String) : Except Exc Doc :=
  if isValidOId tid then
    match find_one st tid with
    | none => .error (.http 404)
    | some d => .ok (serialize_doc d)
  else .error .invalidId

/-- `GET /api/tickets/{ticket_id}` (src/main.py lines 116-126).  The handler
wraps the body in `except Exception: raise HTTPException(400)` with no prior
`except HTTPException: raise`, so every exception of the body — including the
`HTTPException(404)` it raises itself — becomes a 400 response. -/
def get_ticket (db : Option Store) (tid : String) : Except Nat Doc :=
  match db with
  | none => .error 500
  | some st =>
      match get_ticket_body st tid with
      | .ok d => .ok d
      | .error _ => .error 400

/-- The `try` body of `update_ticket` (src/main.py lines 133-145): an empty
update dict is a plain read; otherwise stamp `updated_at`, `$set`-merge into
the first matching document, 404 when nothing matched, then re-fetch.  The
re-fetched document is shaped through `serialize_doc`; when the re-fetch
finds nothing the Python code returns `None`, hence the `Option Doc`. -/
def update_ticket_body (st : Store) (tid : String) (p : TicketUpdate)
    (now : Nat) : Except Exc (Store × Option Doc) :=
  let updates := p.dump
  if updates.isEmpty then
    if isValidOId tid then
      match find_one st tid with
      | none => .error (.http 404)
      | some d => .ok (st, some (serialize_doc d))
    else .error .invalidId
  else
    if isValidOId tid then
      let updates2 := dictSet updates "updated_at" (.vDateTime now)
      let r := update_one st tid updates2
      if r.2 = 0 then .error (.http 404)
      else .ok (r.1, (find_one r.1 tid).map serialize_doc)
    else .error .invalidId

/-- `update_ticket` (src/main.py lines 128-149): re-raises `HTTPException`
unchanged, and turns any other exception into a 400 response.  `now` is the
value of `datetime.utcnow()` at the call. -/
def update_ticket (db : Option Store) (tid : String) (p : TicketUpdate)
    (now : Nat) : Except Nat (Store × Option Doc) :=
  match db with
  | none => .error 500
  | some st =>
      match update_ticket_body st tid p now with
      | .ok r => .ok r
      | .error (.http c) => .error c
      | .error .invalidId => .error 400

/-- The PATCH route of `/api/tickets/{ticket_id}`: both route decorators
(src/main.py lines 128-129) are attached to the same handler function. -/
def patchTicketRoute : Option Store → String → TicketUpdate → Nat →
    Except Nat (Store × Option Doc) := update_ticket

/-- The PUT route of `/api/tickets/{ticket_id}`: the second decorator on the
same handler function. -/
def putTicketRoute : Option Store → String → TicketUpdate → Nat →
    Except Nat (Store × Option Doc) := update_ticket

/-- The `try` body of `delete_ticket` (src/main.py lines 155-159). -/
def delete_ticket_body (st : Store) (tid : String) :
    Except Exc (Store × Doc) :=
  if isValidOId tid then
    let r := delete_one st tid
    if r.2 = 0 then .error (.http 404)
    else .ok (r.1, [("status", .vStr "deleted"), ("id", .vStr tid)])
  else .error .invalidId

/-- `DELETE /api/tickets/{ticket_id}` (src/main.py lines 151-163): re-raises
`HTTPException` unchanged, any other exception becomes a 400 response. -/
def delete_ticket (db : Option Store) (tid : String) :
    Except Nat (Store × Doc) :=
  match db with
  | none => .error 500
  | some st =>
      match delete_ticket_body st tid with
      | .ok r => .ok r
      | .error (.http c) => .error c
      | .error .invalidId => .error 400

/-- The observable state of the pymongo database handle for `/test`: whether
`db` is not `None`, the database name, and the outcome of
`list_collection_names()` (a list, or a raised exception message). -/
structure DbState where
  connected : Bool
  name : Option String
  listCollections : Except String (List String)

/-- The environment variables `/test` inspects. -/
structure EnvState where
  databaseUrlSet : Bool
  databaseNameSet : Bool

/-- The diagnostic object `/test` returns. -/
structure TestResponse where
  backend : String
  database : String
  databaseUrl : String
  databaseName : String
  connectionStatus : String
  collections : List String
deriving DecidableEq

/-- `GET /test` (src/main.py lines 47-82): build the default response, probe
the handle, degrade each failure into a descriptive status string, truncate
the collection listing to 10 names, and finally overwrite the url/name fields
from the environment variables. -/
def test_database (dbs : DbState) (env : EnvState) : TestResponse :=
  let r0 : TestResponse :=
    { backend := "✅ Running", database := "❌ Not Available",
      databaseUrl := "None", databaseName := "None",
      connectionStatus := "Not Connected", collections := [] }
  let r1 :=
    if dbs.connected then
      let r2 := { r0 with database := "✅ Available",
                          databaseUrl := "✅ Configured",
                          databaseName := match dbs.name with
                            | some n => n
                            | none => "✅ Connected",
                          connectionStatus := "Connected" }
      match dbs.listCollections with
      | .ok cols =>
          { r2 with collections := cols.take 10,
                    database := "✅ Connected & Working" }
      | .error e =>
          { r2 with database := "⚠️  Connected but Error: " ++ e.take 50 }
    else { r0 with database := "⚠️  Available but not initialized" }
  { r1 with
      databaseUrl := if env.databaseUrlSet then "✅ Set" else "❌ Not Set",
      databaseName := if env.databaseNameSet then "✅ Set" else "❌ Not Set" }

/-! ### Lemmas about dictionaries and collection operations -/

theorem dictGet_dictSet_same (d : Doc) (k : String) (v : Value) :
    dictGet (dictSet d k v) k = some v := by
  induction d with
  | nil => simp [dictSet, dictGet]
  | cons p rest ih =>
      by_cases h : p.1 = k
      · simp [dictSet, h, dictGet]
      · simp [dictSet, h, dictGet, ih]

theorem dictGet_dictSet_ne (d : Doc) (k k2 : String) (v : Value)
    (h : k2 ≠ k) : dictGet (dictSet d k v) k2 = dictGet d k2 := by
  induction d with
  | nil => simp [dictSet, dictGet, Ne.symm h]
  | cons p rest ih =>
      by_cases hp : p.1 = k
      · simp [dictSet, hp, dictGet, Ne.symm h, ih]
      · by_cases hp2 : p.1 = k2
        · simp [dictSet, hp, dictGet, hp2, h]
        · simp [dictSet, hp, dictGet, hp2, ih]

theorem dictGet_dictPop_self (d : Doc) (k : String) :
    dictGet (dictPop d k) k = none := by
  induction d with
  | nil => simp [dictPop, dictGet]
  | cons p rest ih =>
      by_cases h : p.1 = k
      · simp [dictPop, h, ih]
      · simp [dictPop, h, dictGet, ih]

theorem dictGet_dictPop_ne (d : Doc) (k k2 : String) (h : k2 ≠ k) :
    dictGet (dictPop d k) k2 = dictGet d k2 := by
  induction d with
  | nil => simp [dictPop]
  | cons p rest ih =>
      by_cases hp : p.1 = k
      · simp [dictPop, hp, dictGet, Ne.symm h, ih]
      · by_cases hp2 : p.1 = k2
        · simp [dictPop, hp, dictGet, hp2, h]
        · simp [dictPop, hp, dictGet, hp2, ih]

theorem dictGet_shapeVals (d : Doc) (k : String) :
    dictGet (shapeVals d) k = (dictGet d k).map serializeVal := by
  induction d with
  | nil => simp [shapeVals, dictGet]
  | cons p rest ih =>
      by_cases h : p.1 = k
      · simp [shapeVals, dictGet, h]
      · simpa [shapeVals, dictGet, h] using ih

theorem applySet_dictGet_notin (u d : Doc) (k : String)
    (h : ∀ p ∈ u, p.1 ≠ k) : dictGet (applySet d u) k = dictGet d k := by
  induction u generalizing d with
  | nil => simp [applySet]
  | cons p rest ih =>
      rw [applySet, ih _ (fun q hq => h q (List.mem_cons_of_mem p hq)),
        dictGet_dictSet_ne _ _ _ _ (fun hh => h p (List.mem_cons_self p rest) hh.symm)]

theorem find_one_append_fresh (st l2 : Store) (tid : String)
    (h : ∀ d ∈ st, dictGet d "_id" ≠ some (.vOId tid)) :
    find_one (st ++ l2) tid = find_one l2 tid := by
  induction st with
  | nil => simp
  | cons d rest ih =>
      rw [List.cons_append, find_one,
        if_neg (h d (List.mem_cons_self d rest)),
        ih (fun q hq => h q (List.mem_cons_of_mem d hq))]

theorem update_one_found (st : Store) (tid : String) (u d : Doc)
    (hfind : find_one st tid = some d)
    (hnoid : ∀ p ∈ u, p.1 ≠ "_id") :
    (update_one st tid u).2 = 1 ∧
      find_one (update_one st tid u).1 tid = some (applySet d u) := by
  induction st with
  | nil => simp [find_one] at hfind
  | cons x rest ih =>
      by_cases hx : dictGet x "_id" = some (.vOId tid)
      · rw [find_one, if_pos hx, Option.some_inj] at hfind
        subst hfind
        refine ⟨by simp [update_one, hx], ?_⟩
        rw [update_one, if_pos hx, find_one,
          if_pos (by rw [applySet_dictGet_notin u x "_id" hnoid]; exact hx)]
      · rw [find_one, if_neg hx] at hfind
        obtain ⟨h1, h2⟩ := ih hfind
        refine ⟨by simpa [update_one, hx] using h1, ?_⟩
        rw [update_one, if_neg hx]
        simpa [find_one, hx] using h2

theorem delete_one_not_found (st : Store) (tid : String)
    (hfind : find_one st tid = none) : delete_one st tid = (st, 0) := by
  induction st with
  | nil => simp [delete_one]
  | cons x rest ih =>
      rw [find_one] at hfind
      by_cases hx : dictGet x "_id" = some (.vOId tid)
      · rw [if_pos hx] at hfind; exact absurd hfind (by simp)
      · rw [if_neg hx] at hfind
        simp [delete_one, hx, ih hfind]

theorem delete_one_found (st : Store) (tid : String) (d : Doc)
    (hfind : find_one st tid = some d) : (delete_one st tid).2 = 1 := by
  induction st with
  | nil => simp [find_one] at hfind
  | cons x rest ih =>
      by_cases hx : dictGet x "_id" = some (.vOId tid)
      · simp [delete_one, hx]
      · rw [find_one, if_neg hx] at hfind
        simpa [delete_one, hx] using ih hfind

theorem serializeVal_optVal (a : Option String) :
    serializeVal (optVal a) = optVal a := by cases a <;> rfl

theorem serializeVal_vStr (s : String) :
    serializeVal (.vStr s) = .vStr s := rfl

theorem matchesFilter_single (d : Doc) (k : String) (v : Value) :
    matchesFilter d [(k, v)] = decide (dictGet d k = some v) := by
  simp [matchesFilter]

theorem get_documents_nil (st : Store) : get_documents st [] = st := by
  simp [get_documents, matchesFilter]

/-! ### The claims -/

/-- Claim C1: for every valid creation payload, POST `/api/tickets` followed by
GET `/api/tickets/{id}` with the returned id yields a ticket object whose
fields equal the fields of the input payload, once the server-assigned `id`
(and `updated_at`, absent on creation) are ignored. -/
theorem claim_C1_post_then_get_roundtrip (st : Store) (p : TicketCreate)
    (newId : String) (hv : isValidOId newId = true)
    (hfresh : ∀ d ∈ st, dictGet d "_id" ≠ some (.vOId newId)) :
    ∃ st2 ret,
      create_ticket (some st) p newId = .ok (st2, some ret) ∧
      dictGet ret "id" = some (.vStr newId) ∧
      get_ticket (some st2) newId = .ok ret ∧
      dictPop (dictPop ret "id") "updated_at" = p.dump := by
  have hgetD : dictGet (dictSet p.dump "_id" (.vOId newId)) "_id" =
      some (.vOId newId) := dictGet_dictSet_same _ _ _
  have hfind : find_one (st ++ [dictSet p.dump "_id" (.vOId newId)]) newId =
      some (dictSet p.dump "_id" (.vOId newId)) := by
    rw [find_one_append_fresh st _ newId hfresh, find_one, if_pos hgetD]
  have hpop : dictPop (dictSet p.dump "_id" (.vOId newId)) "_id" = p.dump := by
    cases p; simp [TicketCreate.dump, dictSet, dictPop]
  have hser : serialize_doc (dictSet p.dump "_id" (.vOId newId)) =
      p.dump ++ [("id", .vStr newId)] := by
    rw [serialize_doc, hgetD, hpop]
    cases p
    simp [TicketCreate.dump, dictSet, shapeVals, serializeVal_optVal,
      serializeVal_vStr, pyStr]
  refine ⟨st ++ [dictSet p.dump "_id" (.vOId newId)],
    p.dump ++ [("id", .vStr newId)], ?_, ?_, ?_, ?_⟩
  · rw [create_ticket, create_document]
    simp [hfind, hser]
  · cases p; simp [TicketCreate.dump, dictGet]
  · simp [get_ticket, get_ticket_body, hv, hfind, hser]
  · cases p; simp [TicketCreate.dump, dictPop]

/-- Witness for C1 at the spec's own example payload on an empty store. -/
theorem claim_C1_witness :
    isValidOId "0123456789abcdef01234567" = true ∧
    (∀ d ∈ ([] : Store),
      dictGet d "_id" ≠ some (.vOId "0123456789abcdef01234567")) ∧
    (∃ st2 ret,
      create_ticket (some [])
          (⟨"Fix login bug", none, none, some "high", none⟩ : TicketCreate)
          "0123456789abcdef01234567" = .ok (st2, some ret) ∧
      dictGet ret "id" = some (.vStr "0123456789abcdef01234567") ∧
      get_ticket (some st2) "0123456789abcdef01234567" = .ok ret ∧
      dictPop (dictPop ret "id") "updated_at" =
        TicketCreate.dump
          (⟨"Fix login bug", none, none, some "high", none⟩ : TicketCreate)) :=
  ⟨by decide, by simp,
    claim_C1_post_then_get_roundtrip [] _ _ (by decide) (by simp)⟩

/-- Claim C2 (refuted by the code): the spec says GET `/api/tickets/{id}` with
a well-formed but absent id answers 404.  In `get_ticket` the
`HTTPException(404)` raised inside the `try` block is caught by the bare
`except Exception:` (there is no prior `except HTTPException: raise`, unlike
the update and delete handlers), so the code actually answers 400 whenever
the id is well-formed and no ticket with that id exists. -/
theorem claim_C2_wellformed_absent_id_gives_400 (st : Store) (tid : String)
    (hv : isValidOId tid = true) (hf : find_one st tid = none) :
    get_ticket (some st) tid = .error 400 := by
  simp [get_ticket, get_ticket_body, hv, hf]

/-- Witness for C2's divergence: a well-formed 24-hex id on an empty store. -/
theorem claim_C2_witness :
    isValidOId "0123456789abcdef01234567" = true ∧
    find_one [] "0123456789abcdef01234567" = none ∧
    get_ticket (some []) "0123456789abcdef01234567" = .error 400 :=
  ⟨by decide, rfl,
    claim_C2_wellformed_absent_id_gives_400 [] _ (by decide) rfl⟩

/-- Claim C3: PATCH with exactly `{"status": "closed"}` on an existing ticket
changes only the `status` field and stamps `updated_at`; every other field of
the stored ticket retains its prior value. -/
theorem claim_C3_status_patch_frame (st : Store) (tid : String) (d : Doc)
    (now : Nat) (hv : isValidOId tid = true)
    (hf : find_one st tid = some d) :
    ∃ st2 d2,
      update_ticket (some st) tid statusClosedPayload now =
        .ok (st2, some (serialize_doc d2)) ∧
      find_one st2 tid = some d2 ∧
      dictGet d2 "status" = some (.vStr "closed") ∧
      dictGet d2 "updated_at" = some (.vDateTime now) ∧
      ∀ k, k ≠ "status" → k ≠ "updated_at" → dictGet d2 k = dictGet d k := by
  have hu : dictSet [("status", Value.vStr "closed")] "updated_at"
      (.vDateTime now) =
      [("status", .vStr "closed"), ("updated_at", .vDateTime now)] := rfl
  have hnoid : ∀ p ∈ [("status", Value.vStr "closed"),
      ("updated_at", Value.vDateTime now)], p.1 ≠ "_id" := by simp
  obtain ⟨hcount, hfind2⟩ := update_one_found st tid
    [("status", .vStr "closed"), ("updated_at", .vDateTime now)] d hf hnoid
  have happ : applySet d
      [("status", Value.vStr "closed"), ("updated_at", Value.vDateTime now)] =
      dictSet (dictSet d "status" (.vStr "closed")) "updated_at"
        (.vDateTime now) := rfl
  refine ⟨(update_one st tid
      [("status", .vStr "closed"), ("updated_at", .vDateTime now)]).1,
    applySet d [("status", .vStr "closed"), ("updated_at", .vDateTime now)],
    ?_, hfind2, ?_, ?_, ?_⟩
  · simp [update_ticket, update_ticket_body, TicketUpdate.dump, optField,
      statusClosedPayload, optVal, hv, hu, hcount, hfind2]
  · rw [happ, dictGet_dictSet_ne _ _ _ _ (by decide), dictGet_dictSet_same]
  · rw [happ, dictGet_dictSet_same]
  · intro k h1 h2
    rw [happ, dictGet_dictSet_ne _ _ _ _ h2, dictGet_dictSet_ne _ _ _ _ h1]

/-- Witness for C3 on a one-ticket store. -/
theorem claim_C3_witness :
    isValidOId "0123456789abcdef01234567" = true ∧
    find_one [[("_id", Value.vOId "0123456789abcdef01234567"),
        ("title", Value.vStr "Fix login bug"),
        ("status", Value.vStr "open")]] "0123456789abcdef01234567" =
      some [("_id", Value.vOId "0123456789abcdef01234567"),
        ("title", Value.vStr "Fix login bug"),
        ("status", Value.vStr "open")] ∧
    (∃ st2 d2,
      update_ticket
          (some [[("_id", Value.vOId "0123456789abcdef01234567"),
            ("title", Value.vStr "Fix login bug"),
            ("status", Value.vStr "open")]])
          "0123456789abcdef01234567" statusClosedPayload 7 =
        .ok (st2, some (serialize_doc d2)) ∧
      find_one st2 "0123456789abcdef01234567" = some d2 ∧
      dictGet d2 "status" = some (.vStr "closed") ∧
      dictGet d2 "updated_at" = some (.vDateTime 7) ∧
      ∀ k, k ≠ "status" → k ≠ "updated_at" →
        dictGet d2 k =
          dictGet [("_id", Value.vOId "0123456789abcdef01234567"),
            ("title", Value.vStr "Fix login bug"),
            ("status", Value.vStr "open")] k) :=
  ⟨by decide, rfl, claim_C3_status_patch_frame _ _ _ 7 (by decide) rfl⟩

/-- Claim C4: PATCH with an empty body on an existing ticket with a
well-formed id is a no-op read: the handler answers 200 with the current
shaped document, the store is returned unchanged, and `updated_at` is not
stamped. -/
theorem claim_C4_empty_patch_noop (st : Store) (tid : String) (d : Doc)
    (now : Nat) (hv : isValidOId tid = true)
    (hf : find_one st tid = some d) :
    update_ticket (some st) tid emptyUpdate now =
      .ok (st, some (serialize_doc d)) := by
  simp [update_ticket, update_ticket_body, TicketUpdate.dump, optField,
    emptyUpdate, hv, hf]

/-- Witness for C4 on a one-ticket store. -/
theorem claim_C4_witness :
    isValidOId "0123456789abcdef01234567" = true ∧
    find_one [[("_id", Value.vOId "0123456789abcdef01234567"),
        ("title", Value.vStr "Fix login bug")]] "0123456789abcdef01234567" =
      some [("_id", Value.vOId "0123456789abcdef01234567"),
        ("title", Value.vStr "Fix login bug")] ∧
    update_ticket
        (some [[("_id", Value.vOId "0123456789abcdef01234567"),
          ("title", Value.vStr "Fix login bug")]])
        "0123456789abcdef01234567" emptyUpdate 7 =
      .ok ([[("_id", Value.vOId "0123456789abcdef01234567"),
          ("title", Value.vStr "Fix login bug")]],
        some (serialize_doc [("_id", Value.vOId "0123456789abcdef01234567"),
          ("title", Value.vStr "Fix login bug")])) :=
  ⟨by decide, rfl, claim_C4_empty_patch_noop _ _ _ 7 (by decide) rfl⟩

/-- Claim C5: the PATCH and PUT routes of `/api/tickets/{ticket_id}` are the
same operation — both decorators are attached to the single handler
`update_ticket`, so on every store state and input they produce the same
response and the same resulting store state. -/
theorem claim_C5_patch_put_identical :
    ∀ (db : Option Store) (tid : String) (p : TicketUpdate) (now : Nat),
      patchTicketRoute db tid p now = putTicketRoute db tid p now :=
  fun _ _ _ _ => rfl

/-- Claim C6: GET `/api/tickets` with a (non-empty, see C10) `status` query
parameter returns exactly the shaped subset of stored tickets whose `status`
field equals the given value, analogously for `priority`, and with no filter
supplied it returns the entire shaped collection. -/
theorem claim_C6_list_exact_match_filters (st : Store) (s : String)
    (hs : s ≠ "") :
    (list_tickets (some st) (some s) none =
      .ok ((st.filter
        (fun d => decide (dictGet d "status" = some (.vStr s)))).map
          serialize_doc)) ∧
    (list_tickets (some st) none (some s) =
      .ok ((st.filter
        (fun d => decide (dictGet d "priority" = some (.vStr s)))).map
          serialize_doc)) ∧
    list_tickets (some st) none none = .ok (st.map serialize_doc) := by
  refine ⟨?_, ?_, ?_⟩
  · rw [list_tickets]
    simp only [if_neg hs]
    rw [show dictSet [] "status" (Value.vStr s) =
      [("status", Value.vStr s)] from rfl]
    rw [get_documents,
      List.filter_congr (fun d _ => matchesFilter_single d "status" (.vStr s))]
  · rw [list_tickets]
    simp only [if_neg hs]
    rw [show dictSet [] "priority" (Value.vStr s) =
      [("priority", Value.vStr s)] from rfl]
    rw [get_documents,
      List.filter_congr
        (fun d _ => matchesFilter_single d "priority" (.vStr s))]
  · rw [list_tickets, get_documents_nil]

/-- Witness for C6 on a two-ticket store filtered by `status=open`. -/
theorem claim_C6_witness :
    ("open" : String) ≠ "" ∧
    ((list_tickets
        (some [[("_id", Value.vOId "0123456789abcdef01234567"),
            ("status", Value.vStr "open")],
          [("_id", Value.vOId "76543210fedcba9876543210"),
            ("status", Value.vStr "closed")]])
        (some "open") none =
      .ok ((([[("_id", Value.vOId "0123456789abcdef01234567"),
            ("status", Value.vStr "open")],
          [("_id", Value.vOId "76543210fedcba9876543210"),
            ("status", Value.vStr "closed")]] : Store).filter
        (fun d => decide (dictGet d "status" = some (.vStr "open")))).map
          serialize_doc)) ∧
    (list_tickets
        (some [[("_id", Value.vOId "0123456789abcdef01234567"),
            ("status", Value.vStr "open")],
          [("_id", Value.vOId "76543210fedcba9876543210"),
            ("status", Value.vStr "closed")]])
        none (some "open") =
      .ok ((([[("_id", Value.vOId "0123456789abcdef01234567"),
            ("status", Value.vStr "open")],
          [("_id", Value.vOId "76543210fedcba9876543210"),
            ("status", Value.vStr "closed")]] : Store).filter
        (fun d => decide (dictGet d "priority" = some (.vStr "open")))).map
          serialize_doc)) ∧
    list_tickets
        (some [[("_id", Value.vOId "0123456789abcdef01234567"),
            ("status", Value.vStr "open")],
          [("_id", Value.vOId "76543210fedcba9876543210"),
            ("status", Value.vStr "closed")]])
        none none =
      .ok (([[("_id", Value.vOId "0123456789abcdef01234567"),
            ("status", Value.vStr "open")],
          [("_id", Value.vOId "76543210fedcba9876543210"),
            ("status", Value.vStr "closed")]] : Store).map serialize_doc)) :=
  ⟨by decide, claim_C6_list_exact_match_filters _ "open" (by decide)⟩

/-- Claim C7: DELETE `/api/tickets/{id}` answers 400 on a malformed id, 404
when the id is well-formed but nothing is deleted, and otherwise the
confirmation object with `status` `"deleted"` and the request id. -/
theorem claim_C7_delete_status_codes (st : Store) (tid : String) :
    (isValidOId tid = false → delete_ticket (some st) tid = .error 400) ∧
    (isValidOId tid = true → find_one st tid = none →
      delete_ticket (some st) tid = .error 404) ∧
    (isValidOId tid = true → ∀ d, find_one st tid = some d →
      delete_ticket (some st) tid =
        .ok ((delete_one st tid).1,
          [("status", .vStr "deleted"), ("id", .vStr tid)])) := by
  refine ⟨?_, ?_, ?_⟩
  · intro h; simp [delete_ticket, delete_ticket_body, h]
  · intro hv hf
    simp [delete_ticket, delete_ticket_body, hv,
      delete_one_not_found st tid hf]
  · intro hv d hf
    simp [delete_ticket, delete_ticket_body, hv,
      delete_one_found st tid d hf]

/-- Witness for C7: all three branches at concrete inputs. -/
theorem claim_C7_witness :
    delete_ticket (some []) "not-an-id" = .error 400 ∧
    delete_ticket (some []) "0123456789abcdef01234567" = .error 404 ∧
    delete_ticket
        (some [[("_id", Value.vOId "0123456789abcdef01234567"),
          ("title", Value.vStr "Fix login bug")]])
        "0123456789abcdef01234567" =
      .ok ((delete_one [[("_id", Value.vOId "0123456789abcdef01234567"),
            ("title", Value.vStr "Fix login bug")]]
          "0123456789abcdef01234567").1,
        [("status", .vStr "deleted"),
          ("id", .vStr "0123456789abcdef01234567")]) :=
  ⟨(claim_C7_delete_status_codes [] "not-an-id").1 (by decide),
    (claim_C7_delete_status_codes [] _).2.1 (by decide) rfl,
    (claim_C7_delete_status_codes _ _).2.2 (by decide) _ rfl⟩

/-- Claim C8: `serialize_doc` moves the stored `_id` to `id` stringified,
renders every `datetime`-typed value as its isoformat string, and passes
every other field value through unchanged. -/
theorem claim_C8_serialize_doc_shape (d : Doc) (v : Value)
    (hid : dictGet d "_id" = some v) :
    dictGet (serialize_doc d) "id" = some (.vStr (pyStr v)) ∧
    dictGet (serialize_doc d) "_id" = none ∧
    (∀ k, k ≠ "_id" → k ≠ "id" →
      dictGet (serialize_doc d) k = (dictGet d k).map serializeVal) ∧
    (∀ t, serializeVal (.vDateTime t) = .vStr (isoDatetime t)) ∧
    (∀ t, serializeVal (.vDate t) = .vStr (isoDate t)) ∧
    (∀ w, (∀ t, w ≠ .vDateTime t) → (∀ t, w ≠ .vDate t) →
      serializeVal w = w) := by
  have hs : serialize_doc d =
      shapeVals (dictSet (dictPop d "_id") "id" (.vStr (pyStr v))) := by
    rw [serialize_doc, hid]
  refine ⟨?_, ?_, ?_, fun t => rfl, fun t => rfl, ?_⟩
  · rw [hs, dictGet_shapeVals, dictGet_dictSet_same]; rfl
  · rw [hs, dictGet_shapeVals, dictGet_dictSet_ne _ _ _ _ (by decide),
      dictGet_dictPop_self]; rfl
  · intro k h1 h2
    rw [hs, dictGet_shapeVals, dictGet_dictSet_ne _ _ _ _ h2,
      dictGet_dictPop_ne _ _ _ h1]
  · intro w hw1 hw2
    cases w with
    | vDateTime t => exact absurd rfl (hw1 t)
    | vDate t => exact absurd rfl (hw2 t)
    | _ => rfl

/-- Witness for C8 on a document with an ObjectId, a text field and a
timestamp field. -/
theorem claim_C8_witness :
    dictGet [("_id", Value.vOId "0123456789abcdef01234567"),
        ("title", Value.vStr "Fix login bug"),
        ("updated_at", Value.vDateTime 5)] "_id" =
      some (Value.vOId "0123456789abcdef01234567") ∧
    (dictGet (serialize_doc [("_id", Value.vOId "0123456789abcdef01234567"),
        ("title", Value.vStr "Fix login bug"),
        ("updated_at", Value.vDateTime 5)]) "id" =
      some (.vStr (pyStr (Value.vOId "0123456789abcdef01234567"))) ∧
    dictGet (serialize_doc [("_id", Value.vOId "0123456789abcdef01234567"),
        ("title", Value.vStr "Fix login bug"),
        ("updated_at", Value.vDateTime 5)]) "_id" = none ∧
    (∀ k, k ≠ "_id" → k ≠ "id" →
      dictGet (serialize_doc [("_id", Value.vOId "0123456789abcdef01234567"),
          ("title", Value.vStr "Fix login bug"),
          ("updated_at", Value.vDateTime 5)]) k =
        (dictGet [("_id", Value.vOId "0123456789abcdef01234567"),
          ("title", Value.vStr "Fix login bug"),
          ("updated_at", Value.vDateTime 5)] k).map serializeVal) ∧
    (∀ t, serializeVal (.vDateTime t) = .vStr (isoDatetime t)) ∧
    (∀ t, serializeVal (.vDate t) = .vStr (isoDate t)) ∧
    (∀ w, (∀ t, w ≠ .vDateTime t) → (∀ t, w ≠ .vDate t) →
      serializeVal w = w)) :=
  ⟨rfl, claim_C8_serialize_doc_shape _ _ rfl⟩

/-- Claim C9: `GET /test` is total on every observable database state: it
always answers the diagnostic object with the backend banner, lists at most
10 collection names, degrades a listing failure into a descriptive status
string, reports an unavailable handle descriptively, and reports a successful
listing with the first 10 names. -/
theorem claim_C9_test_endpoint_total (dbs : DbState) (env : EnvState) :
    (test_database dbs env).backend = "✅ Running" ∧
    (test_database dbs env).collections.length ≤ 10 ∧
    (∀ e, dbs.connected = true → dbs.listCollections = .error e →
      (test_database dbs env).database =
        "⚠️  Connected but Error: " ++ e.take 50) ∧
    (dbs.connected = false →
      (test_database dbs env).database =
        "⚠️  Available but not initialized") ∧
    (∀ cols, dbs.connected = true → dbs.listCollections = .ok cols →
      (test_database dbs env).collections = cols.take 10 ∧
      (test_database dbs env).database = "✅ Connected & Working") := by
  obtain ⟨c, nm, lc⟩ := dbs
  cases c <;> cases lc <;> simp [test_database, List.length_take]

/-- Witness for C9 on a handle whose collection listing raises. -/
theorem claim_C9_witness :
    (test_database ⟨true, some "appdb", .error "boom"⟩ ⟨true, false⟩).backend =
      "✅ Running" ∧
    (test_database ⟨true, some "appdb",
      .error "boom"⟩ ⟨true, false⟩).collections.length ≤ 10 ∧
    (test_database ⟨true, some "appdb", .error "boom"⟩ ⟨true, false⟩).database =
      "⚠️  Connected but Error: " ++ "boom".take 50 :=
  ⟨(claim_C9_test_endpoint_total _ _).1,
    (claim_C9_test_endpoint_total _ _).2.1,
    (claim_C9_test_endpoint_total ⟨true, some "appdb", .error "boom"⟩
      ⟨true, false⟩).2.2.1 "boom" rfl rfl⟩

/-- Claim C10: a `status` or `priority` query parameter supplied as the empty
string is Python-falsy in `list_tickets`, so no filter entry is added for it
and the result equals the one with the parameter omitted. -/
theorem claim_C10_empty_string_param_ignored (st : Store)
    (pr s : Option String) :
    list_tickets (some st) (some "") pr = list_tickets (some st) none pr ∧
    list_tickets (some st) s (some "") = list_tickets (some st) s none :=
  ⟨rfl, rfl⟩

end TicketApi
